import Mathlib

/-!
Shallow embedding of the product-listing subsystem of the node-ts-starter
backend: the Zod query validator `productsQuerySchema`, the dynamic SQL
construction in `getProducts` (src/controllers/products.controller.ts), the
error formatting `formatZodError` (src/middlewares/index.ts), and the
pagination calculation, together with theorems settling the specification
claims about them.
-/

namespace ProductsController

/-- The `ProductCategory` enum (src/constants/index.ts). -/
inductive ProductCategory where
  | Electronics
  | Books
  | HomeDecor
  | Clothing
  | FoodAndBeverages
  | HealthAndBeauty
  | SportsAndLeisure
  | Toys
  | Handicrafts
  | OfficeSupplies
deriving DecidableEq

/-- The string value of each `ProductCategory` member (src/constants/index.ts). -/
def categoryName : ProductCategory → String
  | .Electronics => "Electronics"
  | .Books => "Books"
  | .HomeDecor => "Home Decor"
  | .Clothing => "Clothing"
  | .FoodAndBeverages => "Food & Beverages"
  | .HealthAndBeauty => "Health & Beauty"
  | .SportsAndLeisure => "Sports & Leisure"
  | .Toys => "Toys"
  | .Handicrafts => "Handicrafts"
  | .OfficeSupplies => "Office Supplies"

/-- All members of the enum, in declaration order. -/
def allCategories : List ProductCategory :=
  [.Electronics, .Books, .HomeDecor, .Clothing, .FoodAndBeverages,
   .HealthAndBeauty, .SportsAndLeisure, .Toys, .Handicrafts, .OfficeSupplies]

/-- Reverse lookup used by `z.nativeEnum(ProductCategory)`: a raw string is valid
iff it equals the string value of some member. -/
def categoryOfString (s : String) : Option ProductCategory :=
  allCategories.find? (fun c => categoryName c = s)

/-- The `sortBy` whitelist `z.enum(['id', 'name', 'original_price', 'discount_price'])`. -/
inductive SortBy where
  | id
  | name
  | original_price
  | discount_price
deriving DecidableEq

/-- The SQL identifier each `sortBy` member stands for (the enum strings themselves). -/
def sortByName : SortBy → String
  | .id => "id"
  | .name => "name"
  | .original_price => "original_price"
  | .discount_price => "discount_price"

/-- The `order` enum `z.enum(['desc', 'asc'])`. -/
inductive SortOrder where
  | desc
  | asc
deriving DecidableEq

/-- `order.toUpperCase()` as used in the ORDER BY clause (line 96). -/
def orderUpper : SortOrder → String
  | .desc => "DESC"
  | .asc => "ASC"

/-- A raw query-parameter mapping, after the camelCase normalization of line 63:
each field is the string value when the parameter is present. -/
structure RawQuery where
  category : Option String
  priceMin : Option String
  priceMax : Option String
  search : Option String
  page : Option String
  limit : Option String
  sortBy : Option String
  order : Option String

/-- A decimal digit, the regex class `\d`. -/
def isDigitChar (c : Char) : Bool :=
  decide (48 ≤ c.toNat) && decide (c.toNat ≤ 57)

/-- A nonzero decimal digit, the regex class `[1-9]`. -/
def isNonzeroDigitChar (c : Char) : Bool :=
  decide (49 ≤ c.toNat) && decide (c.toNat ≤ 57)

/-- The test of the regex `^[1-9]\d*$` (used for priceMax, page, limit). -/
def isPosIntStr (s : String) : Bool :=
  match s.data with
  | [] => false
  | c :: cs => isNonzeroDigitChar c && cs.all isDigitChar

/-- The test of the regex `^\d+$` (used for priceMin). -/
def isNonNegIntStr (s : String) : Bool :=
  match s.data with
  | [] => false
  | c :: cs => isDigitChar c && cs.all isDigitChar

/-- `Number(s)` on a string of decimal digits. -/
def strToNat (s : String) : Nat :=
  s.data.foldl (fun n c => 10 * n + (c.toNat - 48)) 0

/-- The `category` field schema `z.nativeEnum(ProductCategory).optional()`.
The failure message stands for the message Zod generates for a nativeEnum
mismatch (the source sets no custom message for this field). -/
def parseCategory : Option String → Except String (Option ProductCategory)
  | none => .ok none
  | some s =>
    match categoryOfString s with
    | some c => .ok (some c)
    | none => .error "Invalid enum value for category"

/-- The `priceMin` field schema (lines 15-21): regex `^\d+$` with the source's
message, `.optional().transform(Number)`. An absent field becomes
`Number(undefined) = NaN`, modelled as `none`. -/
def parsePriceMin : Option String → Except String (Option Nat)
  | none => .ok none
  | some s =>
    if isNonNegIntStr s then .ok (some (strToNat s))
    else .error "Minium price must be a non-negative integer"

/-- The `priceMax` field schema (lines 22-26): regex `^[1-9]\d*$`,
`.optional().transform(Number)`; absent becomes NaN, modelled as `none`. -/
def parsePriceMax : Option String → Except String (Option Nat)
  | none => .ok none
  | some s =>
    if isPosIntStr s then .ok (some (strToNat s))
    else .error "Maximum price must be a positive integer"

/-- The `page` field schema (lines 28-34): regex `^[1-9]\d*$`,
`.default('1').transform(Number)`. -/
def parsePage : Option String → Except String Nat
  | none => .ok 1
  | some s =>
    if isPosIntStr s then .ok (strToNat s)
    else .error "Page must be a positive integer"

/-- The `limit` field schema (lines 35-44): regex `^[1-9]\d*$`,
`.default('10').transform(Number).refine(value <= 100)`. -/
def parseLimit : Option String → Except String Nat
  | none => .ok 10
  | some s =>
    if isPosIntStr s then
      if strToNat s ≤ 100 then .ok (strToNat s)
      else .error "Limit must be less than or equal to 100"
    else .error "Limit must be a positive integer"

/-- The `sortBy` field schema (line 45): `z.enum([...]).optional().default('id')`.
The failure message stands for Zod's generated enum-mismatch message. -/
def parseSortBy : Option String → Except String SortBy
  | none => .ok .id
  | some s =>
    if s = "id" then .ok .id
    else if s = "name" then .ok .name
    else if s = "original_price" then .ok .original_price
    else if s = "discount_price" then .ok .discount_price
    else .error "Invalid enum value for sortBy"

/-- The `order` field schema (line 46): `z.enum(['desc', 'asc']).optional().default('desc')`.
The match is exact (case-sensitive); the failure message stands for Zod's
generated enum-mismatch message. -/
def parseOrder : Option String → Except String SortOrder
  | none => .ok .desc
  | some s =>
    if s = "desc" then .ok .desc
    else if s = "asc" then .ok .asc
    else .error "Invalid enum value for order"

/-- One entry of a ZodError: the path of the offending field ([] for an issue
attached to the object as a whole) and its message. -/
structure ZodIssue where
  path : List String
  message : String
deriving DecidableEq

/-- The issues a single field contributes: none on success, its message tagged
with its key on failure. -/
def fieldIssues {α : Type} (field : String) : Except String α → List ZodIssue
  | .ok _ => []
  | .error msg => [⟨[field], msg⟩]

/-- The validated query parameters destructured on line 70. -/
structure FilterDescriptor where
  category : Option ProductCategory
  priceMin : Option Nat
  priceMax : Option Nat
  search : Option String
  page : Nat
  limit : Nat
  sortBy : SortBy
  order : SortOrder
deriving DecidableEq

/-- The base object parse of `productsQuerySchema`: every field is parsed
(Zod collects the issues of all failing fields, in shape order) and the
descriptor is built only when no field fails. `search` is a plain optional
string and cannot fail. -/
def baseParse (q : RawQuery) : Except (List ZodIssue) FilterDescriptor :=
  match parseCategory q.category, parsePriceMin q.priceMin, parsePriceMax q.priceMax,
      parsePage q.page, parseLimit q.limit, parseSortBy q.sortBy, parseOrder q.order with
  | .ok c, .ok mi, .ok ma, .ok p, .ok l, .ok sb, .ok o =>
    .ok ⟨c, mi, ma, q.search, p, l, sb, o⟩
  | rc, rmi, rma, rp, rl, rsb, ro =>
    .error (fieldIssues "category" rc ++ fieldIssues "priceMin" rmi ++
      fieldIssues "priceMax" rma ++ fieldIssues "page" rp ++
      fieldIssues "limit" rl ++ fieldIssues "sortBy" rsb ++ fieldIssues "order" ro)

/-- The object-level `.refine` (lines 48-58): skipped when either price is NaN
(absent), otherwise requires priceMin < priceMax; the issue it raises carries
an empty path (it is attached to the object, not to one field). -/
def priceRangeIssue (mi ma : Option Nat) : Option ZodIssue :=
  match mi, ma with
  | some a, some b =>
    if a < b then none
    else some ⟨[], "Minimum price must be less than maximum price"⟩
  | _, _ => none

/-- `productsQuerySchema.safeParse`: the object parse, then the cross-field
refinement (Zod runs the refinement only when the base parse succeeded). -/
def parseProductsQuery (q : RawQuery) : Except (List ZodIssue) FilterDescriptor :=
  match baseParse q with
  | .error issues => .error issues
  | .ok fd =>
    match priceRangeIssue fd.priceMin fd.priceMax with
    | none => .ok fd
    | some issue => .error [issue]

/-- `formatZodError` (src/middlewares/index.ts line 53): the issue messages
joined with a newline. -/
def formatZodError (issues : List ZodIssue) : String :=
  String.intercalate "\n" (issues.map ZodIssue.message)

/-- The `category && ...` clause of the `_.compact` array (lines 86 and 115):
a JavaScript string is truthy iff nonempty, and the template literal
interpolates the category value directly into the SQL text. -/
def categoryClause (fd : FilterDescriptor) : Option String :=
  match fd.category with
  | some c => if categoryName c = "" then none else some ("c.name = '" ++ categoryName c ++ "'")
  | none => none

/-- The `priceMin && ...` clause (lines 87 and 116): a JavaScript number is
truthy iff it is neither 0 nor NaN, so a parsed priceMin of 0 yields no clause. -/
def priceMinClause (fd : FilterDescriptor) : Option String :=
  match fd.priceMin with
  | some n => if n = 0 then none else some ("p.discount_price >= " ++ toString n)
  | none => none

/-- The `priceMax && ...` clause (lines 88 and 117). -/
def priceMaxClause (fd : FilterDescriptor) : Option String :=
  match fd.priceMax with
  | some n => if n = 0 then none else some ("p.discount_price <= " ++ toString n)
  | none => none

/-- The `search && ...` clause (lines 89 and 118): the search value is
interpolated between the percent signs inside the SQL text. -/
def searchClause (fd : FilterDescriptor) : Option String :=
  match fd.search with
  | some s => if s = "" then none else some ("p.name LIKE '%" ++ s ++ "%'")
  | none => none

/-- `productsWhereClauses` (lines 85-90): `_.compact` keeps the truthy entries. -/
def productsWhereClauses (fd : FilterDescriptor) : List String :=
  List.filterMap id [categoryClause fd, priceMinClause fd, priceMaxClause fd, searchClause fd]

/-- `countWhereClauses` (lines 114-119), duplicated verbatim in the source. -/
def countWhereClauses (fd : FilterDescriptor) : List String :=
  List.filterMap id [categoryClause fd, priceMinClause fd, priceMaxClause fd, searchClause fd]

/-- The initial template literal of `productsQuery` (lines 76-82). -/
def productsQueryBase : String :=
  "\n    SELECT\n      p.id, p.name, p.original_price, p.discount_price, p.description,\n      c.name AS category_name\n    FROM products p\n    LEFT JOIN categories c ON p.category_id = c.id\n  "

/-- The ORDER BY / LIMIT / OFFSET tail appended on lines 95-98. -/
def orderLimitTail (fd : FilterDescriptor) : String :=
  "\n    ORDER BY " ++ sortByName fd.sortBy ++ " " ++ orderUpper fd.order ++
    "\n    LIMIT ? OFFSET ?;\n  "

/-- The full data-selection SQL text built on lines 76-98. -/
def productsQuery (fd : FilterDescriptor) : String :=
  (if (productsWhereClauses fd).length > 0 then
    productsQueryBase ++ " WHERE " ++ String.intercalate " AND " (productsWhereClauses fd)
  else productsQueryBase) ++ orderLimitTail fd

/-- The initial count SQL text (line 112). -/
def countQueryBase : String :=
  "SELECT COUNT(*) AS total FROM products p LEFT JOIN categories c ON p.category_id = c.id"

/-- The full count SQL text built on lines 112-123. -/
def countQuery (fd : FilterDescriptor) : String :=
  if (countWhereClauses fd).length > 0 then
    countQueryBase ++ " WHERE " ++ String.intercalate " AND " (countWhereClauses fd)
  else countQueryBase

/-- `const offset = (page - 1) * limit` (line 73; page is at least 1 after
validation, so natural subtraction is exact). -/
def offsetCalc (page limit : Nat) : Nat :=
  (page - 1) * limit

/-- A SQL statement as handed to `pool.execute`: text plus bound parameters. -/
structure SqlStatement where
  text : String
  params : List String
deriving DecidableEq

/-- The data query execution of line 100: only `limit` and the computed offset
are bound as parameters (both stringified). -/
def dataStatement (fd : FilterDescriptor) : SqlStatement :=
  ⟨productsQuery fd, [toString fd.limit, toString (offsetCalc fd.page fd.limit)]⟩

/-- The count query execution of line 125: no bound parameters. -/
def countStatement (fd : FilterDescriptor) : SqlStatement :=
  ⟨countQuery fd, []⟩

/-- The `pool.execute` calls `getProducts` issues for a raw query, in order:
validation failure throws on line 67 before any query is built or executed. -/
def executedStatements (q : RawQuery) : List SqlStatement :=
  match parseProductsQuery q with
  | .error _ => []
  | .ok fd => [dataStatement fd, countStatement fd]

/-- `Math.ceil(this.totalItems / limit)` (line 135): real division, then
the ceiling, on nonnegative integers. -/
def totalPages (totalItems limit : Nat) : Nat :=
  ⌈(totalItems : ℚ) / (limit : ℚ)⌉₊

/-- A structured view of one WHERE predicate, carrying the column it
constrains and the value it compares against. -/
inductive SqlPred where
  | categoryEq : String → SqlPred
  | discountPriceGe : Nat → SqlPred
  | discountPriceLe : Nat → SqlPred
  | nameLike : String → SqlPred
deriving DecidableEq

/-- The SQL text of a structured predicate, exactly as lines 85-90 build it. -/
def renderPred : SqlPred → String
  | .categoryEq c => "c.name = '" ++ c ++ "'"
  | .discountPriceGe n => "p.discount_price >= " ++ toString n
  | .discountPriceLe n => "p.discount_price <= " ++ toString n
  | .nameLike s => "p.name LIKE '%" ++ s ++ "%'"

/-- Structured form of `categoryClause`. -/
def categoryPredOpt (fd : FilterDescriptor) : Option SqlPred :=
  match fd.category with
  | some c => if categoryName c = "" then none else some (.categoryEq (categoryName c))
  | none => none

/-- Structured form of `priceMinClause`. -/
def priceMinPredOpt (fd : FilterDescriptor) : Option SqlPred :=
  match fd.priceMin with
  | some n => if n = 0 then none else some (.discountPriceGe n)
  | none => none

/-- Structured form of `priceMaxClause`. -/
def priceMaxPredOpt (fd : FilterDescriptor) : Option SqlPred :=
  match fd.priceMax with
  | some n => if n = 0 then none else some (.discountPriceLe n)
  | none => none

/-- Structured form of `searchClause`. -/
def searchPredOpt (fd : FilterDescriptor) : Option SqlPred :=
  match fd.search with
  | some s => if s = "" then none else some (.nameLike s)
  | none => none

/-- The structured predicate list matching `productsWhereClauses`. -/
def wherePreds (fd : FilterDescriptor) : List SqlPred :=
  List.filterMap id [categoryPredOpt fd, priceMinPredOpt fd, priceMaxPredOpt fd, searchPredOpt fd]

/-- The columns of a joined product row that the WHERE predicates may inspect;
the LEFT JOIN can leave the category name NULL, hence the option. -/
structure Row where
  name : String
  originalPrice : Nat
  discountPrice : Nat
  categoryName : Option String

/-- Satisfaction of one predicate by a row, per SQL semantics (`LIKE '%s%'`
with a wildcard-free `s` is substring containment). -/
def evalPred (r : Row) : SqlPred → Prop
  | .categoryEq c => r.categoryName = some c
  | .discountPriceGe n => n ≤ r.discountPrice
  | .discountPriceLe n => r.discountPrice ≤ n
  | .nameLike s => s.data <:+: r.name.data

/-- A row satisfies the WHERE clause iff it satisfies every AND-ed predicate. -/
def rowMatches (fd : FilterDescriptor) (r : Row) : Prop :=
  ∀ p ∈ wherePreds fd, evalPred r p

/-- An otherwise-empty raw query. -/
def emptyRawQuery : RawQuery :=
  ⟨none, none, none, none, none, none, none, none⟩

/-- Raw query `?search=a`. -/
def qSearchA : RawQuery :=
  ⟨none, none, none, some "a", none, none, none, none⟩

/-- Raw query `?search=b`. -/
def qSearchB : RawQuery :=
  ⟨none, none, none, some "b", none, none, none, none⟩

/-- The descriptor the validator produces for `?search=a`. -/
def fdSearchA : FilterDescriptor :=
  ⟨none, none, none, some "a", 1, 10, .id, .desc⟩

/-- The descriptor the validator produces for `?search=b`. -/
def fdSearchB : FilterDescriptor :=
  ⟨none, none, none, some "b", 1, 10, .id, .desc⟩

/-- Raw query `?priceMin=0&priceMax=5`. -/
def qPriceMinZero : RawQuery :=
  ⟨none, some "0", some "5", none, none, none, none, none⟩

/-- The descriptor the validator produces for `?priceMin=0&priceMax=5`. -/
def fdPriceMinZero : FilterDescriptor :=
  ⟨none, some 0, some 5, none, 1, 10, .id, .desc⟩

/-- Raw query `?order=ASC`. -/
def qOrderUpperASC : RawQuery :=
  ⟨none, none, none, none, none, none, none, some "ASC"⟩

/-- Raw query `?priceMin=1000&priceMax=100`. -/
def qPriceBad : RawQuery :=
  ⟨none, some "1000", some "100", none, none, none, none, none⟩

/-- The descriptor the base object parse produces for `?priceMin=1000&priceMax=100`. -/
def fdPriceBad : FilterDescriptor :=
  ⟨none, some 1000, some 100, none, 1, 10, .id, .desc⟩

/-- Raw query `?page=0&limit=0`, invalid in both pagination fields. -/
def qPageLimitBad : RawQuery :=
  ⟨none, none, none, none, some "0", some "0", none, none⟩

/-- Raw query `?category=InvalidCategory`. -/
def qBadCategory : RawQuery :=
  ⟨some "InvalidCategory", none, none, none, none, none, none, none⟩

/-- Raw query `?priceMin=100&priceMax=1000`. -/
def qPriceRange : RawQuery :=
  ⟨none, some "100", some "1000", none, none, none, none, none⟩

/-- The descriptor the validator produces for `?priceMin=100&priceMax=1000`. -/
def fdPriceRange : FilterDescriptor :=
  ⟨none, some 100, some 1000, none, 1, 10, .id, .desc⟩

/-- A sample joined row. -/
def rowExample : Row :=
  ⟨"Product 1", 2000, 500, some "Books"⟩

end ProductsController

namespace ProductsController

/-- String concatenation is associative (via the underlying character lists). -/
theorem str_append_assoc (a b c : String) : a ++ b ++ c = a ++ (b ++ c) := by
  apply String.ext
  simp [String.data_append, List.append_assoc]

/-- The digit-accumulating fold of `strToNat` never drops below 1 once the
accumulator reached 1. -/
theorem foldl_digits_ge_one (l : List Char) : ∀ n : Nat, 1 ≤ n →
    1 ≤ l.foldl (fun n c => 10 * n + (c.toNat - 48)) n := by
  induction l with
  | nil => intro n h; simpa using h
  | cons c cs ih =>
    intro n h
    rw [List.foldl_cons]
    exact ih (10 * n + (c.toNat - 48)) (by omega)

/-- A string matching `^[1-9]\d*$` denotes a positive number. -/
theorem strToNat_pos (s : String) (h : isPosIntStr s = true) : 1 ≤ strToNat s := by
  rw [isPosIntStr] at h
  rw [strToNat]
  revert h
  cases s.data with
  | nil => intro h; simp at h
  | cons c cs =>
    intro h
    simp only [Bool.and_eq_true] at h
    have hc : 1 ≤ c.toNat - 48 := by
      have h1 := h.1
      rw [isNonzeroDigitChar] at h1
      simp only [Bool.and_eq_true, decide_eq_true_eq] at h1
      omega
    rw [List.foldl_cons]
    exact foldl_digits_ge_one cs (10 * 0 + (c.toNat - 48)) (by omega)

/-- A successful base parse records exactly the priceMax field parse result. -/
theorem baseParse_ok_priceMax (q : RawQuery) (fd : FilterDescriptor)
    (h : baseParse q = .ok fd) : parsePriceMax q.priceMax = .ok fd.priceMax := by
  rw [baseParse] at h
  split at h
  · rename_i c mi ma p l sb o
    cases h
    assumption
  · simp at h

/-- A priceMax value accepted by the validator is positive (its regex is
`^[1-9]\d*$`). -/
theorem parsePriceMax_ok_pos (os : Option String) (n : Nat)
    (h : parsePriceMax os = .ok (some n)) : 1 ≤ n := by
  cases os with
  | none => simp [parsePriceMax] at h
  | some s =>
    rw [parsePriceMax] at h
    split at h
    · rename_i hpos
      cases h
      exact strToNat_pos s hpos
    · simp at h

/-- A successful full parse implies a successful base parse of the same
descriptor. -/
theorem parseProductsQuery_ok_base (q : RawQuery) (fd : FilterDescriptor)
    (h : parseProductsQuery q = .ok fd) : baseParse q = .ok fd := by
  rw [parseProductsQuery] at h
  split at h
  · simp at h
  · rename_i fd' hb
    split at h
    · cases h
      exact hb
    · simp at h

/-- A successful full parse also means the cross-field refinement raised no
issue. -/
theorem parseProductsQuery_ok_refine (q : RawQuery) (fd : FilterDescriptor)
    (h : parseProductsQuery q = .ok fd) :
    priceRangeIssue fd.priceMin fd.priceMax = none := by
  rw [parseProductsQuery] at h
  split at h
  · simp at h
  · rename_i fd' hb
    split at h
    · rename_i hr
      cases h
      exact hr
    · simp at h

/-- A nonzero present priceMin puts its lower-bound predicate in the list. -/
theorem discountPriceGe_mem (fd : FilterDescriptor) (n : Nat)
    (h : fd.priceMin = some n) (hn : n ≠ 0) : SqlPred.discountPriceGe n ∈ wherePreds fd := by
  simp only [wherePreds, List.mem_filterMap, id]
  refine ⟨some (.discountPriceGe n), ?_, rfl⟩
  simp [priceMinPredOpt, h, hn]

/-- A nonzero present priceMax puts its upper-bound predicate in the list. -/
theorem discountPriceLe_mem (fd : FilterDescriptor) (n : Nat)
    (h : fd.priceMax = some n) (hn : n ≠ 0) : SqlPred.discountPriceLe n ∈ wherePreds fd := by
  simp only [wherePreds, List.mem_filterMap, id]
  refine ⟨some (.discountPriceLe n), ?_, rfl⟩
  simp [priceMaxPredOpt, h, hn]

/-- The category clause string is the rendering of its structured predicate. -/
theorem categoryClause_render (fd : FilterDescriptor) :
    categoryClause fd = (categoryPredOpt fd).map renderPred := by
  rw [categoryClause, categoryPredOpt]
  cases fd.category with
  | none => rfl
  | some c =>
    show (if categoryName c = "" then none else some ("c.name = '" ++ categoryName c ++ "'")) =
      Option.map renderPred
        (if categoryName c = "" then none else some (SqlPred.categoryEq (categoryName c)))
    split_ifs <;> rfl

/-- The priceMin clause string is the rendering of its structured predicate. -/
theorem priceMinClause_render (fd : FilterDescriptor) :
    priceMinClause fd = (priceMinPredOpt fd).map renderPred := by
  rw [priceMinClause, priceMinPredOpt]
  cases fd.priceMin with
  | none => rfl
  | some n =>
    show (if n = 0 then none else some ("p.discount_price >= " ++ toString n)) =
      Option.map renderPred (if n = 0 then none else some (SqlPred.discountPriceGe n))
    split_ifs <;> rfl

/-- The priceMax clause string is the rendering of its structured predicate. -/
theorem priceMaxClause_render (fd : FilterDescriptor) :
    priceMaxClause fd = (priceMaxPredOpt fd).map renderPred := by
  rw [priceMaxClause, priceMaxPredOpt]
  cases fd.priceMax with
  | none => rfl
  | some n =>
    show (if n = 0 then none else some ("p.discount_price <= " ++ toString n)) =
      Option.map renderPred (if n = 0 then none else some (SqlPred.discountPriceLe n))
    split_ifs <;> rfl

/-- The search clause string is the rendering of its structured predicate. -/
theorem searchClause_render (fd : FilterDescriptor) :
    searchClause fd = (searchPredOpt fd).map renderPred := by
  rw [searchClause, searchPredOpt]
  cases fd.search with
  | none => rfl
  | some s =>
    show (if s = "" then none else some ("p.name LIKE '%" ++ s ++ "%'")) =
      Option.map renderPred (if s = "" then none else some (SqlPred.nameLike s))
    split_ifs <;> rfl

/-- The emitted WHERE clause strings are exactly the renderings of the
structured predicate list. -/
theorem clauses_render (fd : FilterDescriptor) :
    productsWhereClauses fd = (wherePreds fd).map renderPred := by
  rw [productsWhereClauses, wherePreds, categoryClause_render, priceMinClause_render,
    priceMaxClause_render, searchClause_render]
  cases categoryPredOpt fd <;> cases priceMinPredOpt fd <;> cases priceMaxPredOpt fd <;>
    cases searchPredOpt fd <;> rfl

/-- The `totalPages` computation (ceiling of real division) coincides with the
integer ceiling-division formula. -/
theorem totalPages_eq (totalItems limit : Nat) (hl : 1 ≤ limit) :
    totalPages totalItems limit = (totalItems + limit - 1) / limit := by
  rcases Nat.eq_zero_or_pos totalItems with h0 | hpos
  · subst h0
    rw [totalPages]
    norm_num
    rw [Nat.div_eq_of_lt (by omega)]
  · have hl0 : (0 : ℚ) < (limit : ℚ) := by exact_mod_cast hl
    have hn1 : 1 ≤ (totalItems + limit - 1) / limit := by
      rw [Nat.one_le_div_iff (by omega)]
      omega
    rw [totalPages, Nat.ceil_eq_iff (by omega)]
    have hd := Nat.div_add_mod (totalItems + limit - 1) limit
    have hm : (totalItems + limit - 1) % limit < limit := Nat.mod_lt _ (by omega)
    set n := (totalItems + limit - 1) / limit with hn
    set m := (totalItems + limit - 1) % limit with hm2
    obtain ⟨P, hP⟩ : ∃ P, limit * n = P := ⟨_, rfl⟩
    rw [hP] at hd
    constructor
    · rw [lt_div_iff₀ hl0]
      have : (n - 1) * limit < totalItems := by
        have h1 : (n - 1) * limit = n * limit - limit := by
          rw [Nat.sub_mul, Nat.one_mul]
        rw [h1, Nat.mul_comm, hP]
        omega
      exact_mod_cast this
    · rw [div_le_iff₀ hl0]
      have : totalItems ≤ n * limit := by
        rw [Nat.mul_comm, hP]
        omega
      exact_mod_cast this

/-- A successful base parse records the parse result of every field. -/
theorem baseParse_ok_fields (q : RawQuery) (fd : FilterDescriptor)
    (h : baseParse q = .ok fd) :
    parseCategory q.category = .ok fd.category ∧
    parsePriceMin q.priceMin = .ok fd.priceMin ∧
    parsePriceMax q.priceMax = .ok fd.priceMax ∧
    parsePage q.page = .ok fd.page ∧
    parseLimit q.limit = .ok fd.limit ∧
    parseSortBy q.sortBy = .ok fd.sortBy ∧
    parseOrder q.order = .ok fd.order := by
  rw [baseParse] at h
  split at h
  · cases h
    refine ⟨?_, ?_, ?_, ?_, ?_, ?_, ?_⟩ <;> assumption
  · simp at h

/-- When the base parse fails, its issue list contains the issue of every
field that failed, whichever fields those are: no field error is dropped. -/
theorem baseParse_error_mem (q : RawQuery) (issues : List ZodIssue)
    (hb : baseParse q = .error issues) :
    (∀ m, parseCategory q.category = .error m → ZodIssue.mk ["category"] m ∈ issues) ∧
    (∀ m, parsePriceMin q.priceMin = .error m → ZodIssue.mk ["priceMin"] m ∈ issues) ∧
    (∀ m, parsePriceMax q.priceMax = .error m → ZodIssue.mk ["priceMax"] m ∈ issues) ∧
    (∀ m, parsePage q.page = .error m → ZodIssue.mk ["page"] m ∈ issues) ∧
    (∀ m, parseLimit q.limit = .error m → ZodIssue.mk ["limit"] m ∈ issues) ∧
    (∀ m, parseSortBy q.sortBy = .error m → ZodIssue.mk ["sortBy"] m ∈ issues) ∧
    (∀ m, parseOrder q.order = .error m → ZodIssue.mk ["order"] m ∈ issues) := by
  rw [baseParse] at hb
  split at hb
  · simp at hb
  · cases hb
    refine ⟨?_, ?_, ?_, ?_, ?_, ?_, ?_⟩ <;> intro m hm <;> rw [hm] <;>
      simp [fieldIssues, List.mem_append]

/-- Whenever any one of the seven fields fails to parse, the base object
parse fails (with some issue list). -/
theorem baseParse_error_of_field_error (q : RawQuery)
    (h : (∃ m, parseCategory q.category = .error m) ∨
      (∃ m, parsePriceMin q.priceMin = .error m) ∨
      (∃ m, parsePriceMax q.priceMax = .error m) ∨
      (∃ m, parsePage q.page = .error m) ∨
      (∃ m, parseLimit q.limit = .error m) ∨
      (∃ m, parseSortBy q.sortBy = .error m) ∨
      (∃ m, parseOrder q.order = .error m)) :
    ∃ errs, baseParse q = .error errs := by
  rw [baseParse]
  rcases hC : parseCategory q.category with eC | vC <;>
    rcases hMi : parsePriceMin q.priceMin with eMi | vMi <;>
    rcases hMa : parsePriceMax q.priceMax with eMa | vMa <;>
    rcases hP : parsePage q.page with eP | vP <;>
    rcases hL : parseLimit q.limit with eL | vL <;>
    rcases hSb : parseSortBy q.sortBy with eSb | vSb <;>
    rcases hO : parseOrder q.order with eO | vO <;>
    first
      | exact ⟨_, rfl⟩
      | (rcases h with ⟨m, hm⟩ | ⟨m, hm⟩ | ⟨m, hm⟩ | ⟨m, hm⟩ | ⟨m, hm⟩ | ⟨m, hm⟩ | ⟨m, hm⟩ <;>
          simp_all)

end ProductsController

namespace ProductsController

set_option maxRecDepth 8000 in
/-- C1: the claim says filter values appear only in the bound parameter list
and never in the SQL text; the code instead interpolates them. Evidence: the
validator accepts search=a and search=b, the two resulting SQL templates
differ (the search value sits inside the LIKE clause of the text, as the
clause list for search=a shows), while the bound parameter lists are
identical and hold only the stringified limit and offset. -/
theorem c1_search_value_interpolated_not_bound :
    parseProductsQuery qSearchA = .ok fdSearchA ∧
    parseProductsQuery qSearchB = .ok fdSearchB ∧
    productsWhereClauses fdSearchA = ["p.name LIKE '%a%'"] ∧
    productsQuery fdSearchA ≠ productsQuery fdSearchB ∧
    (dataStatement fdSearchA).params = ["10", "0"] ∧
    (dataStatement fdSearchB).params = ["10", "0"] := by
  refine ⟨rfl, rfl, rfl, ?_, rfl, rfl⟩
  decide

set_option maxRecDepth 20000 in
/-- C2: for every descriptor the count statement applies exactly the same
predicate set as the data statement: the two clause lists are equal, both
query texts decompose as a fixed head (each containing the same LEFT JOIN of
products with categories), the identical WHERE section, and, for the data
statement only, the ORDER BY / LIMIT / OFFSET tail. -/
theorem c2_count_query_same_predicates (fd : FilterDescriptor) :
    countWhereClauses fd = productsWhereClauses fd ∧
    productsQuery fd = productsQueryBase ++
      (if (productsWhereClauses fd).length > 0 then
        " WHERE " ++ String.intercalate " AND " (productsWhereClauses fd)
      else "") ++ orderLimitTail fd ∧
    countQuery fd = countQueryBase ++
      (if (productsWhereClauses fd).length > 0 then
        " WHERE " ++ String.intercalate " AND " (productsWhereClauses fd)
      else "") ∧
    "LEFT JOIN categories c ON p.category_id = c.id".data <:+: productsQueryBase.data ∧
    "LEFT JOIN categories c ON p.category_id = c.id".data <:+: countQueryBase.data := by
  refine ⟨rfl, ?_, ?_, by decide, by decide⟩
  · rw [productsQuery]
    split_ifs with h
    · apply String.ext
      simp [String.data_append, List.append_assoc]
    · apply String.ext
      simp [String.data_append, List.append_assoc,
        show ("" : String).data = ([] : List Char) from rfl]
  · rw [countQuery]
    show (if (productsWhereClauses fd).length > 0 then
        countQueryBase ++ " WHERE " ++ String.intercalate " AND " (productsWhereClauses fd)
      else countQueryBase) = _
    split_ifs with h
    · apply String.ext
      simp [String.data_append, List.append_assoc]
    · apply String.ext
      simp [String.data_append, List.append_assoc,
        show ("" : String).data = ([] : List Char) from rfl]

/-- C3: for every validated page and limit (positive) and every totalItems,
the offset is (page - 1) * limit, totalPages (the ceiling of the real
division totalItems / limit) equals the integer ceiling-division formula, and
totalPages is 0 when totalItems is 0. -/
theorem c3_pagination_offset_and_totalPages (page limit totalItems : Nat)
    (hp : 1 ≤ page) (hl : 1 ≤ limit) :
    offsetCalc page limit = (page - 1) * limit ∧
    totalPages totalItems limit = (totalItems + limit - 1) / limit ∧
    totalPages 0 limit = 0 := by
  refine ⟨rfl, totalPages_eq totalItems limit hl, ?_⟩
  simp [totalPages]

/-- C3 witness: the theorem instantiated at page 2, limit 5, totalItems 12. -/
theorem c3_pagination_witness :
    offsetCalc 2 5 = (2 - 1) * 5 ∧ totalPages 12 5 = (12 + 5 - 1) / 5 ∧ totalPages 0 5 = 0 :=
  c3_pagination_offset_and_totalPages 2 5 12 (by norm_num) (by norm_num)

/-- C4: the claim says a present, validly parsed priceMin (including 0)
always contributes its lower-bound predicate; the code drops it for 0 because
`priceMin && ...` is falsy there. Evidence: priceMin=0, priceMax=5 validates
to a descriptor carrying priceMin = 0, yet both clause lists hold only the
priceMax predicate, while the nonzero descriptor of priceMin=100,
priceMax=1000 gets both predicates. -/
theorem c4_priceMin_zero_predicate_dropped :
    parseProductsQuery qPriceMinZero = .ok fdPriceMinZero ∧
    fdPriceMinZero.priceMin = some 0 ∧
    productsWhereClauses fdPriceMinZero = ["p.discount_price <= 5"] ∧
    countWhereClauses fdPriceMinZero = ["p.discount_price <= 5"] ∧
    productsWhereClauses fdPriceRange =
      ["p.discount_price >= 100", "p.discount_price <= 1000"] :=
  ⟨rfl, rfl, rfl, rfl, rfl⟩

/-- C5 counterexample: the claim says any letter-casing of asc/desc is
accepted; the enum match is case-sensitive, so order=ASC fails validation. -/
theorem c5_counterexample_uppercase_asc_rejected :
    parseProductsQuery qOrderUpperASC =
      .error [⟨["order"], "Invalid enum value for order"⟩] := rfl

/-- C5 amended: absent order defaults to desc; only the exact lowercase
strings asc and desc are accepted; the accepted value is rendered uppercase
in the ORDER BY clause. -/
theorem c5_order_case_sensitive_lowercase_only :
    parseOrder none = .ok SortOrder.desc ∧
    (∀ s : String, parseOrder (some s) = .ok SortOrder.asc ↔ s = "asc") ∧
    (∀ s : String, parseOrder (some s) = .ok SortOrder.desc ↔ s = "desc") ∧
    orderUpper SortOrder.asc = "ASC" ∧ orderUpper SortOrder.desc = "DESC" := by
  refine ⟨rfl, ?_, ?_, rfl, rfl⟩
  · intro s
    constructor
    · intro h
      rw [parseOrder] at h
      split_ifs at h with h1 h2
      · simp at h
      · exact h2
    · intro h
      subst h
      rfl
  · intro s
    constructor
    · intro h
      rw [parseOrder] at h
      split_ifs at h with h1 h2
      · exact h1
      · simp at h
    · intro h
      subst h
      rfl

/-- C6: page defaults to 1 and fails with its message on any string outside
the positive-integer pattern (in particular "0"); limit defaults to 10,
succeeds at 100, fails at 101 with the maximum message, and fails on any
non-positive-integer string with a distinct message. -/
theorem c6_page_limit_validation :
    parsePage none = .ok 1 ∧
    (∀ s, isPosIntStr s = false →
      parsePage (some s) = .error "Page must be a positive integer") ∧
    parsePage (some "0") = .error "Page must be a positive integer" ∧
    parseLimit none = .ok 10 ∧
    parseLimit (some "100") = .ok 100 ∧
    parseLimit (some "101") = .error "Limit must be less than or equal to 100" ∧
    (∀ s, isPosIntStr s = false →
      parseLimit (some s) = .error "Limit must be a positive integer") ∧
    "Limit must be a positive integer" ≠ "Limit must be less than or equal to 100" := by
  refine ⟨rfl, ?_, rfl, rfl, rfl, rfl, ?_, by decide⟩
  · intro s h
    rw [parsePage, if_neg (by simp [h])]
  · intro s h
    rw [parseLimit, if_neg (by simp [h])]

/-- C7: whenever validation succeeds with both bounds present, priceMin is
strictly below priceMax; when the base field parses succeed but the bounds
violate the order, the whole parse fails with the one cross-field issue whose
path is empty (attached to the request, not a field); when at most one bound
is present, the refinement never rejects. -/
theorem c7_price_cross_field_refinement :
    (∀ q fd, parseProductsQuery q = .ok fd →
      ∀ a b, fd.priceMin = some a → fd.priceMax = some b → a < b) ∧
    (∀ q fd a b, baseParse q = .ok fd → fd.priceMin = some a → fd.priceMax = some b →
      ¬ a < b → parseProductsQuery q =
        .error [⟨[], "Minimum price must be less than maximum price"⟩]) ∧
    (∀ q fd, baseParse q = .ok fd → (fd.priceMin = none ∨ fd.priceMax = none) →
      parseProductsQuery q = .ok fd) := by
  refine ⟨?_, ?_, ?_⟩
  · intro q fd h a b hmi hma
    have hr := parseProductsQuery_ok_refine q fd h
    by_contra hab
    rw [hmi, hma] at hr
    have h2 : priceRangeIssue (some a) (some b) =
        some ⟨[], "Minimum price must be less than maximum price"⟩ := by
      simp [priceRangeIssue, hab]
    rw [h2] at hr
    cases hr
  · intro q fd a b hb hmi hma hab
    simp only [parseProductsQuery, hb]
    rw [hmi, hma]
    have h2 : priceRangeIssue (some a) (some b) =
        some ⟨[], "Minimum price must be less than maximum price"⟩ := by
      simp [priceRangeIssue, hab]
    rw [h2]
  · intro q fd hb h
    simp only [parseProductsQuery, hb]
    have h2 : priceRangeIssue fd.priceMin fd.priceMax = none := by
      rcases h with h | h
      · rw [h]; cases fd.priceMax <;> rfl
      · rw [h]; cases fd.priceMin <;> rfl
    rw [h2]

/-- C8: for every raw query input, every violated field is reported together
in the single failure: whenever validation fails, each of the seven fields
that failed has its issue in the error list (no short-circuit, whatever the
combination of invalid fields); whenever any field fails, validation does
fail; the failure message newline-joins the issue messages; and concretely
page=0 with limit=0 fails with exactly the two issues and their
newline-joined formatting. -/
theorem c8_all_validation_failures_collected :
    (∀ q errs, parseProductsQuery q = .error errs →
      (∀ m, parseCategory q.category = .error m → ZodIssue.mk ["category"] m ∈ errs) ∧
      (∀ m, parsePriceMin q.priceMin = .error m → ZodIssue.mk ["priceMin"] m ∈ errs) ∧
      (∀ m, parsePriceMax q.priceMax = .error m → ZodIssue.mk ["priceMax"] m ∈ errs) ∧
      (∀ m, parsePage q.page = .error m → ZodIssue.mk ["page"] m ∈ errs) ∧
      (∀ m, parseLimit q.limit = .error m → ZodIssue.mk ["limit"] m ∈ errs) ∧
      (∀ m, parseSortBy q.sortBy = .error m → ZodIssue.mk ["sortBy"] m ∈ errs) ∧
      (∀ m, parseOrder q.order = .error m → ZodIssue.mk ["order"] m ∈ errs)) ∧
    (∀ q, ((∃ m, parseCategory q.category = .error m) ∨
      (∃ m, parsePriceMin q.priceMin = .error m) ∨
      (∃ m, parsePriceMax q.priceMax = .error m) ∨
      (∃ m, parsePage q.page = .error m) ∨
      (∃ m, parseLimit q.limit = .error m) ∨
      (∃ m, parseSortBy q.sortBy = .error m) ∨
      (∃ m, parseOrder q.order = .error m)) →
      ∃ errs, parseProductsQuery q = .error errs) ∧
    (∀ errs, formatZodError errs = String.intercalate "\n" (errs.map ZodIssue.message)) ∧
    parseProductsQuery qPageLimitBad = .error
      [⟨["page"], "Page must be a positive integer"⟩,
       ⟨["limit"], "Limit must be a positive integer"⟩] ∧
    formatZodError
      [⟨["page"], "Page must be a positive integer"⟩,
       ⟨["limit"], "Limit must be a positive integer"⟩] =
      "Page must be a positive integer\nLimit must be a positive integer" := by
  refine ⟨?_, ?_, fun _ => rfl, rfl, rfl⟩
  · intro q errs h
    rcases hb : baseParse q with issues | fd
    · simp only [parseProductsQuery, hb] at h
      cases h
      exact baseParse_error_mem q errs hb
    · obtain ⟨hc, hmi, hma, hp, hl, hsb, ho⟩ := baseParse_ok_fields q fd hb
      refine ⟨?_, ?_, ?_, ?_, ?_, ?_, ?_⟩ <;> intro m hm <;> simp_all
  · intro q h
    obtain ⟨errs, hb⟩ := baseParse_error_of_field_error q h
    exact ⟨errs, by simp only [parseProductsQuery, hb]⟩

/-- C9: whenever validation fails, getProducts issues no query at all to the
storage collaborator: its trace of pool.execute calls is empty. -/
theorem c9_validation_failure_executes_no_query (q : RawQuery) (errs : List ZodIssue)
    (h : parseProductsQuery q = .error errs) : executedStatements q = [] := by
  rw [executedStatements, h]

/-- C9 witness: category=InvalidCategory fails validation naming the category
field, and the executed-statement trace is empty. -/
theorem c9_witness_invalid_category : executedStatements qBadCategory = [] :=
  c9_validation_failure_executes_no_query qBadCategory
    [⟨["category"], "Invalid enum value for category"⟩] rfl

/-- C10: for every validator-produced descriptor, a row satisfying the
generated WHERE predicates has its discount price within the present bounds
(priceMin below it, priceMax above it), any row agreeing on name, discount
price and category name also matches (so originalPrice is unconstrained), and
the emitted clause strings are exactly the renderings of the structured
predicates, which compare the discount_price column. -/
theorem c10_price_filters_constrain_discount_price (q : RawQuery)
    (fd : FilterDescriptor) (r : Row)
    (hq : parseProductsQuery q = .ok fd) (hr : rowMatches fd r) :
    (∀ n, fd.priceMin = some n → n ≤ r.discountPrice) ∧
    (∀ n, fd.priceMax = some n → r.discountPrice ≤ n) ∧
    (∀ s : Row, s.name = r.name → s.discountPrice = r.discountPrice →
      s.categoryName = r.categoryName → rowMatches fd s) ∧
    productsWhereClauses fd = (wherePreds fd).map renderPred := by
  refine ⟨?_, ?_, ?_, clauses_render fd⟩
  · intro n hn
    rcases Nat.eq_zero_or_pos n with h0 | hpos
    · omega
    · exact hr _ (discountPriceGe_mem fd n hn (by omega))
  · intro n hn
    have hbase := parseProductsQuery_ok_base q fd hq
    have hmax := baseParse_ok_priceMax q fd hbase
    rw [hn] at hmax
    have hpos := parsePriceMax_ok_pos q.priceMax n hmax
    exact hr _ (discountPriceLe_mem fd n hn (by omega))
  · intro s h1 h2 h3 p hp
    have he := hr p hp
    cases p with
    | categoryEq c => rw [evalPred] at he ⊢; rw [h3]; exact he
    | discountPriceGe n => rw [evalPred] at he ⊢; rw [h2]; exact he
    | discountPriceLe n => rw [evalPred] at he ⊢; rw [h2]; exact he
    | nameLike t => rw [evalPred] at he ⊢; rw [h1]; exact he

/-- C10 witness: the theorem applied to the validated query
priceMin=100, priceMax=1000 and a matching concrete row with discount price
500 (and unconstrained original price 2000). -/
theorem c10_witness_price_range_row :
    100 ≤ rowExample.discountPrice ∧ rowExample.discountPrice ≤ 1000 := by
  have hm : rowMatches fdPriceRange rowExample := by
    intro p hp
    have hw : wherePreds fdPriceRange =
        [.discountPriceGe 100, .discountPriceLe 1000] := rfl
    rw [hw] at hp
    simp only [List.mem_cons, List.not_mem_nil, or_false] at hp
    rcases hp with rfl | rfl
    · show (100 : Nat) ≤ 500
      omega
    · show (500 : Nat) ≤ 1000
      omega
  have h := c10_price_filters_constrain_discount_price qPriceRange fdPriceRange
    rowExample rfl hm
  exact ⟨h.1 100 rfl, h.2.1 1000 rfl⟩

end ProductsController
